import Mathlib

/-!
Shallow embedding of the SFT/DPO dataset-eligibility classification logic of
src/nextmockingrouter.py from the intersebd repository.

Conventions of the embedding:
  - Python floats (annotation rewards, thresholds) are modelled as rationals.
  - The external json / jsonschema libraries are modelled by a record of two
    functions: loads (None encodes a json.JSONDecodeError being raised) and
    validate (whose outcome distinguishes success, JsonSchemaValidationError
    and any other exception); the classifier maps every non-ok outcome to a
    False classification, which embeds the try/except blocks of the source.
  - A project schema document is a JSON object, i.e. a Python dict: the list
    of its fields.  Python "if active_schema:" is False both for None and for
    the empty dict, so emptiness of the document is observable.
  - Database fields: CompletionAnnotation.reward is a nullable float,
    CompletionResponse.choice_content is nullable text,
    CompletionAlternative.alternative_content is non-null text.
  - The stored messages JSON of a request is raw data: it may fail to be a
    list, and each entry may be a non-dict or a dict possibly missing the
    role / content keys.  Present values are modelled as strings (the data
    written by the proxy-logging path).
-/

namespace Intersebd

/-- Minimal JSON value tree standing for Python objects returned by json.loads. -/
inductive JsonVal where
  | null : JsonVal
  | boolean : Bool → JsonVal
  | num : ℚ → JsonVal
  | str : String → JsonVal
  | arr : List JsonVal → JsonVal
  | obj : List (String × JsonVal) → JsonVal

/-- A project JSON-schema document: a JSON object (a Python dict), as stored in
ProjectJsonSchema.schema_content. -/
abbrev JsonSchemaDoc : Type := List (String × JsonVal)

/-- Outcome of running the external jsonschema validator on a parsed document:
success, a JsonSchemaValidationError, or any other exception. -/
inductive ValidationOutcome where
  | ok : ValidationOutcome
  | schemaError : ValidationOutcome
  | otherError : ValidationOutcome
deriving DecidableEq

/-- The external json / jsonschema libraries, as used by the classifiers.
loads returns none exactly when json.loads would raise json.JSONDecodeError. -/
structure JsonLib where
  loads : String → Option JsonVal
  validate : JsonSchemaDoc → JsonVal → ValidationOutcome

/-- One CompletionAnnotation row: reward is a nullable float. -/
structure Annotation where
  reward : Option ℚ
deriving DecidableEq

/-- The slice of a CompletionResponse row read through
AnnotationTarget.completion_response: its id and nullable choice_content. -/
structure CompletionResponse where
  id : Nat
  choice_content : Option String
deriving DecidableEq

/-- The slice of a CompletionAlternative row read through
AnnotationTarget.completion_alternative: its id and non-null
alternative_content. -/
structure CompletionAlternative where
  id : Nat
  alternative_content : String
deriving DecidableEq

/-- An AnnotationTarget row with its loaded relationships: the list of its
annotations and the (at most one) candidate owning it, primary response or
alternative. -/
structure AnnotationTarget where
  id : Nat
  annotations : List Annotation
  completion_response : Option CompletionResponse
  completion_alternative : Option CompletionAlternative
deriving DecidableEq

/-- Content resolution shared by both classifiers and by the DPO generators:
take choice_content from the primary response if the target has one, else
alternative_content from the alternative, else nothing. -/
def resolveContent (target : AnnotationTarget) : Option String :=
  match target.completion_response with
  | some resp => resp.choice_content
  | none =>
    match target.completion_alternative with
    | some alt => some alt.alternative_content
    | none => none

/-- Sum of the non-null rewards of a target, as computed by the classifiers. -/
def total_reward (target : AnnotationTarget) : ℚ :=
  (target.annotations.filterMap (fun a => a.reward)).sum

/-- Count of the annotations of a target that carry a non-null reward. -/
def num_annotations_with_reward (target : AnnotationTarget) : Nat :=
  target.annotations.countP (fun a => a.reward.isSome)

/-- Average reward of a target: total non-null reward divided by the total
annotation count (including annotations whose reward is null). -/
def average_reward (target : AnnotationTarget) : ℚ :=
  total_reward target / (target.annotations.length : ℚ)

/-- The JSON / schema block shared verbatim by is_sft_example and
is_dpo_negative_example (the source duplicates it, commented "same logic as
SFT"): resolve the content string, fail on missing or empty content, fail if
json.loads raises, fail on any validator outcome other than success. -/
def contentSchemaCheck (lib : JsonLib) (active_schema : JsonSchemaDoc)
    (target : AnnotationTarget) : Bool :=
  match resolveContent target with
  | none => false
  | some content =>
    if content = "" then false
    else
      match lib.loads content with
      | none => false
      | some parsed =>
        match lib.validate active_schema parsed with
        | ValidationOutcome.ok => true
        | ValidationOutcome.schemaError => false
        | ValidationOutcome.otherError => false

/-- Embedding of is_sft_example (src/nextmockingrouter.py).  Fails with no
annotations, fails when no annotation has a non-null reward, fails when the
average reward is below the threshold, and, when a non-empty active schema is
given (Python "if active_schema:"), additionally requires the content / JSON /
schema checks to pass. -/
def is_sft_example (lib : JsonLib) (target : AnnotationTarget)
    (active_schema : Option JsonSchemaDoc) (threshold : ℚ) : Bool :=
  let anns := target.annotations
  if anns.isEmpty then false
  else if num_annotations_with_reward target = 0 then false
  else if average_reward target < threshold then false
  else
    match active_schema with
    | none => true
    | some schema =>
      if schema.isEmpty then true
      else contentSchemaCheck lib schema target

/-- Embedding of is_dpo_negative_example (src/nextmockingrouter.py): same
structure as is_sft_example with the reward comparison inverted (fails when
average_reward >= threshold). -/
def is_dpo_negative_example (lib : JsonLib) (target : AnnotationTarget)
    (active_schema : Option JsonSchemaDoc) (threshold : ℚ) : Bool :=
  let anns := target.annotations
  if anns.isEmpty then false
  else if num_annotations_with_reward target = 0 then false
  else if threshold ≤ average_reward target then false
  else
    match active_schema with
    | none => true
    | some schema =>
      if schema.isEmpty then true
      else contentSchemaCheck lib schema target

/-- The schema gate applied by both classifiers after the reward checks:
trivially true when no schema or an empty schema document is active, otherwise
the shared content / JSON / schema check. -/
def schemaGate (lib : JsonLib) (active_schema : Option JsonSchemaDoc)
    (target : AnnotationTarget) : Bool :=
  match active_schema with
  | none => true
  | some schema => if schema.isEmpty then true else contentSchemaCheck lib schema target

/-- One raw entry of the stored messages JSON of a request: either not a dict
at all, or a dict whose role and content keys may each be absent (none) or
hold a string. -/
inductive RawEntry where
  | nondict : RawEntry
  | dict : Option String → Option String → RawEntry
deriving DecidableEq

/-- The stored messages field of a request: raw JSON that may fail to be a
list. -/
inductive RawMessages where
  | notList : RawMessages
  | list : List RawEntry → RawMessages
deriving DecidableEq

/-- Python msg.get of the role key (none when the key is absent; message
entries that are not dicts are only used where the source has filtered them
out or would raise, and all concrete inputs below are dicts). -/
def entryRole : RawEntry → Option String
  | RawEntry.nondict => none
  | RawEntry.dict r _ => r

/-- Python msg.get of the content key. -/
def entryContent : RawEntry → Option String
  | RawEntry.nondict => none
  | RawEntry.dict _ c => c

/-- Python truthiness of an optional string: false for None and for the empty
string. -/
def truthyStr : Option String → Bool
  | none => false
  | some s => s ≠ ""

/-- One SftMessageSchema record: a role and a content string. -/
structure SftMessage where
  role : String
  content : String
deriving DecidableEq

/-- One SftConversationSchema record: a list of messages. -/
structure SftConversation where
  messages : List SftMessage
deriving DecidableEq

/-- The base-message list comprehension of the dataset generators: an entry
survives iff it is a dict having both the role and content keys; surviving
entries become SftMessageSchema records.  (With string-valued keys the
SftMessageSchema constructor cannot raise, so the surrounding try/except of
the source is dead in the modelled value space.) -/
def parseEntry : RawEntry → Option SftMessage
  | RawEntry.nondict => none
  | RawEntry.dict r c =>
    match r, c with
    | some role, some content => some (SftMessage.mk role content)
    | some _, none => none
    | none, _ => none

/-- Parsing of the stored messages of one request by the dataset generators:
fails (request skipped) when the field is not a list, otherwise keeps the
well-formed entries. -/
def parseBaseMessages : RawMessages → Option (List SftMessage)
  | RawMessages.notList => none
  | RawMessages.list es => some (es.filterMap parseEntry)

/-- A CompletionResponse row as reached from its request, with its (possibly
absent) annotation target loaded. -/
structure ResponseWithTarget where
  id : Nat
  choice_content : Option String
  annotation_target : Option AnnotationTarget
deriving DecidableEq

/-- A CompletionAlternative row as reached from its request, with its
(possibly absent) annotation target loaded. -/
structure AlternativeWithTarget where
  id : Nat
  alternative_content : String
  annotation_target : Option AnnotationTarget
deriving DecidableEq

/-- A CompletionsRequest row with its loaded relationships: the raw stored
messages, the (at most one) primary response and the list of alternatives. -/
structure CompletionsRequest where
  id : String
  messages : RawMessages
  completion_response : Option ResponseWithTarget
  alternatives : List AlternativeWithTarget
deriving DecidableEq

/-- The target-collection block shared by is_dpo_ready, get_requests_summary
and the DPO generators: the primary response target (when present) followed by
the targets of the alternatives. -/
def targetsOfRequest (req : CompletionsRequest) : List AnnotationTarget :=
  (match req.completion_response with
   | some resp =>
     match resp.annotation_target with
     | some target => [target]
     | none => []
   | none => []) ++
  req.alternatives.filterMap (fun alt => alt.annotation_target)

/-- The loop body of is_dpo_ready: walk the targets accumulating the found_sft
and found_dpo_negative flags, returning True inside the loop as soon as both
hold, and False when the loop ends. -/
def dpoReadyLoop (lib : JsonLib) (active_schema : Option JsonSchemaDoc)
    (sft_threshold dpo_negative_threshold : ℚ) :
    List AnnotationTarget → Bool → Bool → Bool
  | [], _, _ => false
  | target :: rest, found_sft, found_dpo_negative =>
    let found_sft := found_sft || is_sft_example lib target active_schema sft_threshold
    let found_dpo_negative := found_dpo_negative ||
      is_dpo_negative_example lib target active_schema dpo_negative_threshold
    if found_sft && found_dpo_negative then true
    else dpoReadyLoop lib active_schema sft_threshold dpo_negative_threshold
      rest found_sft found_dpo_negative

/-- Embedding of is_dpo_ready (src/nextmockingrouter.py): collect the targets
of the primary response and the alternatives, return False when there are
none, otherwise run the flag-accumulating loop. -/
def is_dpo_ready (lib : JsonLib) (active_schema : Option JsonSchemaDoc)
    (sft_threshold dpo_negative_threshold : ℚ) (req : CompletionsRequest) : Bool :=
  let targets_to_check := targetsOfRequest req
  if targets_to_check.isEmpty then false
  else dpoReadyLoop lib active_schema sft_threshold dpo_negative_threshold
    targets_to_check false false

/-- SFT entries contributed by one request in _generate_project_sft_data:
skip the request when its messages are malformed, else one conversation (the
parsed base messages plus one appended assistant message carrying the
candidate content) for the primary response if its target passes
is_sft_example, then one per qualifying alternative. -/
def sftEntriesForRequest (lib : JsonLib) (active_schema : Option JsonSchemaDoc)
    (sft_threshold : ℚ) (req : CompletionsRequest) : List SftConversation :=
  match parseBaseMessages req.messages with
  | none => []
  | some base_messages =>
    let main_entries : List SftConversation :=
      match req.completion_response with
      | some resp =>
        match resp.annotation_target with
        | some target =>
          if is_sft_example lib target active_schema sft_threshold then
            [SftConversation.mk (base_messages ++
              [SftMessage.mk "assistant" (resp.choice_content.getD "")])]
          else []
        | none => []
      | none => []
    let alt_entries : List SftConversation :=
      req.alternatives.filterMap (fun alt =>
        match alt.annotation_target with
        | some target =>
          if is_sft_example lib target active_schema sft_threshold then
            some (SftConversation.mk (base_messages ++
              [SftMessage.mk "assistant" alt.alternative_content]))
          else none
        | none => none)
    main_entries ++ alt_entries

/-- Embedding of _generate_project_sft_data over an already-fetched request
list (the query and the active-schema fetch are the data-access collaborator). -/
def generate_project_sft_data (lib : JsonLib) (active_schema : Option JsonSchemaDoc)
    (sft_threshold : ℚ) (requests : List CompletionsRequest) : List SftConversation :=
  requests.flatMap (sftEntriesForRequest lib active_schema sft_threshold)

/-- The DpoInputSchema record: the parsed base messages plus the tool metadata
defaulting to an empty tool list and parallel_tool_calls = true. -/
structure DpoInput where
  messages : List SftMessage
  tools : List Unit
  parallel_tool_calls : Bool
deriving DecidableEq

/-- The DpoExampleSchema record; each output side is a one-element list of
assistant messages, modelled by the content strings (DpoAssistantMessageSchema
fixes role = "assistant"). -/
structure DpoExample where
  input : DpoInput
  preferred_output : List String
  non_preferred_output : List String
deriving DecidableEq

/-- SFT-qualifying targets of one request in _generate_project_dpo_data, each
with its resolved content: targets whose resolved content is None are skipped
(note: the empty string is kept here), the rest are kept iff they pass
is_sft_example. -/
def dpoSftList (lib : JsonLib) (active_schema : Option JsonSchemaDoc)
    (sft_threshold : ℚ) (targets : List AnnotationTarget) :
    List (AnnotationTarget × String) :=
  targets.filterMap (fun target =>
    match resolveContent target with
    | none => none
    | some content =>
      if is_sft_example lib target active_schema sft_threshold then
        some (target, content)
      else none)

/-- DPO-negative-qualifying targets of one request in
_generate_project_dpo_data, each with its resolved content. -/
def dpoNegList (lib : JsonLib) (active_schema : Option JsonSchemaDoc)
    (dpo_negative_threshold : ℚ) (targets : List AnnotationTarget) :
    List (AnnotationTarget × String) :=
  targets.filterMap (fun target =>
    match resolveContent target with
    | none => none
    | some content =>
      if is_dpo_negative_example lib target active_schema dpo_negative_threshold then
        some (target, content)
      else none)

/-- DPO examples contributed by one request in _generate_project_dpo_data:
nothing unless both qualifying lists are non-empty, then (after the
malformed-messages skip) one example per (SFT, negative) pair of targets with
distinct ids. -/
def dpoEntriesForRequest (lib : JsonLib) (active_schema : Option JsonSchemaDoc)
    (sft_threshold dpo_negative_threshold : ℚ) (req : CompletionsRequest) :
    List DpoExample :=
  let targets := targetsOfRequest req
  let sfts := dpoSftList lib active_schema sft_threshold targets
  let negs := dpoNegList lib active_schema dpo_negative_threshold targets
  if sfts.isEmpty || negs.isEmpty then []
  else
    match parseBaseMessages req.messages with
    | none => []
    | some input_messages =>
      let dpo_input : DpoInput := DpoInput.mk input_messages [] true
      sfts.flatMap (fun sft =>
        negs.filterMap (fun neg =>
          if sft.1.id = neg.1.id then none
          else some (DpoExample.mk dpo_input [sft.2] [neg.2])))

/-- Embedding of _generate_project_dpo_data over an already-fetched request
list. -/
def generate_project_dpo_data (lib : JsonLib) (active_schema : Option JsonSchemaDoc)
    (sft_threshold dpo_negative_threshold : ℚ) (requests : List CompletionsRequest) :
    List DpoExample :=
  requests.flatMap
    (dpoEntriesForRequest lib active_schema sft_threshold dpo_negative_threshold)

/-- One item of the Hugging Face Hub DPO export: chosen and rejected
conversations plus the two average-reward scores. -/
structure HubDpoItem where
  chosen : List SftMessage
  rejected : List SftMessage
  score_chosen : ℚ
  score_rejected : ℚ
deriving DecidableEq

/-- SFT-qualifying targets of one request in _generate_project_dpo_data_for_hub,
each with its content and average reward: targets with falsy (missing or
empty) content, with no annotations, or with no non-null reward are skipped. -/
def hubSftList (lib : JsonLib) (active_schema : Option JsonSchemaDoc)
    (sft_threshold : ℚ) (targets : List AnnotationTarget) :
    List (AnnotationTarget × String × ℚ) :=
  targets.filterMap (fun target =>
    match resolveContent target with
    | none => none
    | some content =>
      if content = "" then none
      else if target.annotations.isEmpty then none
      else if num_annotations_with_reward target = 0 then none
      else if is_sft_example lib target active_schema sft_threshold then
        some (target, content, average_reward target)
      else none)

/-- DPO-negative-qualifying targets of one request in
_generate_project_dpo_data_for_hub, each with its content and average reward. -/
def hubNegList (lib : JsonLib) (active_schema : Option JsonSchemaDoc)
    (dpo_negative_threshold : ℚ) (targets : List AnnotationTarget) :
    List (AnnotationTarget × String × ℚ) :=
  targets.filterMap (fun target =>
    match resolveContent target with
    | none => none
    | some content =>
      if content = "" then none
      else if target.annotations.isEmpty then none
      else if num_annotations_with_reward target = 0 then none
      else if is_dpo_negative_example lib target active_schema dpo_negative_threshold then
        some (target, content, average_reward target)
      else none)

/-- Hub DPO items contributed by one request in
_generate_project_dpo_data_for_hub: the malformed-messages skip happens first
here, then one item per (SFT, negative) pair of targets with distinct ids. -/
def hubEntriesForRequest (lib : JsonLib) (active_schema : Option JsonSchemaDoc)
    (sft_threshold dpo_negative_threshold : ℚ) (req : CompletionsRequest) :
    List HubDpoItem :=
  match parseBaseMessages req.messages with
  | none => []
  | some base_user_messages =>
    let targets := targetsOfRequest req
    let sfts := hubSftList lib active_schema sft_threshold targets
    let negs := hubNegList lib active_schema dpo_negative_threshold targets
    if sfts.isEmpty || negs.isEmpty then []
    else
      sfts.flatMap (fun sft =>
        negs.filterMap (fun neg =>
          if sft.1.id = neg.1.id then none
          else some (HubDpoItem.mk
            (base_user_messages ++ [SftMessage.mk "assistant" sft.2.1])
            (base_user_messages ++ [SftMessage.mk "assistant" neg.2.1])
            sft.2.2 neg.2.2)))

/-- Embedding of _generate_project_dpo_data_for_hub over an already-fetched
request list. -/
def generate_project_dpo_data_for_hub (lib : JsonLib)
    (active_schema : Option JsonSchemaDoc)
    (sft_threshold dpo_negative_threshold : ℚ) (requests : List CompletionsRequest) :
    List HubDpoItem :=
  requests.flatMap
    (hubEntriesForRequest lib active_schema sft_threshold dpo_negative_threshold)

/-- Name truncation of get_requests_summary: cut to 50 characters and append
an ellipsis when the question is longer than 50 characters. -/
def truncName (question : String) : String :=
  if question.length > 50 then question.take 50 ++ "..." else question

/-- The name / question derivation of get_requests_summary: walk the messages
in reverse collecting contents of user-role messages with truthy content; the
first such content is the question; otherwise fall back to the last message
when its content is truthy; otherwise keep the defaults.  (A non-dict entry
would raise in the source; the concrete inputs below use dict entries only.) -/
def deriveNameQuestion (req : CompletionsRequest) : String × String :=
  let default_name := "Request " ++ req.id.take 8 ++ "..."
  match req.messages with
  | RawMessages.notList => (default_name, "N/A")
  | RawMessages.list es =>
    if es.isEmpty then (default_name, "N/A")
    else
      let user_messages_content : List String :=
        es.reverse.filterMap (fun m =>
          if entryRole m = some "user" ∧ truthyStr (entryContent m) = true then
            entryContent m
          else none)
      match user_messages_content with
      | q :: _ => (truncName q, q)
      | [] =>
        match es.getLast? with
        | some last =>
          match entryContent last with
          | some q => if q = "" then (default_name, "N/A") else (truncName q, q)
          | none => (default_name, "N/A")
        | none => (default_name, "N/A")

/-- One MockRequestSummary record (the timestamp field, whose derivation is
pure formatting of datetimes, is not modelled). -/
structure MockRequestSummary where
  id : String
  name : String
  question : String
  totalResponses : Nat
  annotatedResponses : Nat
  sftStatus : String
  dpoStatus : String
deriving DecidableEq

/-- The per-request body of get_requests_summary: count annotated targets,
look for an SFT-qualifying target among the annotated ones, derive the
tri-state SFT status and the two-state DPO status. -/
def requestSummary (lib : JsonLib) (active_schema : Option JsonSchemaDoc)
    (sft_threshold dpo_negative_threshold : ℚ) (req : CompletionsRequest) :
    MockRequestSummary :=
  let nq := deriveNameQuestion req
  let targets_to_check := targetsOfRequest req
  let annotated_responses_count :=
    targets_to_check.countP (fun t => !t.annotations.isEmpty)
  let found_sft_for_request := targets_to_check.any (fun t =>
    !t.annotations.isEmpty && is_sft_example lib t active_schema sft_threshold)
  let request_sft_status :=
    if found_sft_for_request then "complete"
    else if annotated_responses_count > 0 then "partial"
    else "none"
  let request_dpo_status :=
    if is_dpo_ready lib active_schema sft_threshold dpo_negative_threshold req then
      "complete"
    else "none"
  MockRequestSummary.mk req.id nq.1 nq.2 targets_to_check.length
    annotated_responses_count request_sft_status request_dpo_status

/-- Embedding of the summary loop of get_requests_summary over an
already-fetched request list. -/
def get_requests_summary (lib : JsonLib) (active_schema : Option JsonSchemaDoc)
    (sft_threshold dpo_negative_threshold : ℚ)
    (requests : List CompletionsRequest) : List MockRequestSummary :=
  requests.map (requestSummary lib active_schema sft_threshold dpo_negative_threshold)

/-- Specification-side view of a request candidate: the primary response or an
alternative. -/
inductive Candidate where
  | primary : ResponseWithTarget → Candidate
  | alternative : AlternativeWithTarget → Candidate
deriving DecidableEq

/-- The annotation target of a candidate. -/
def candidateTarget : Candidate → Option AnnotationTarget
  | Candidate.primary resp => resp.annotation_target
  | Candidate.alternative alt => alt.annotation_target

/-- The text of a candidate as emitted into SFT conversations (None content of
a primary response becomes the empty string, as in the source). -/
def candidateText : Candidate → String
  | Candidate.primary resp => resp.choice_content.getD ""
  | Candidate.alternative alt => alt.alternative_content

/-- All candidates of a request: the primary response (when present) followed
by the alternatives. -/
def candidatesOf (req : CompletionsRequest) : List Candidate :=
  (match req.completion_response with
   | some resp => [Candidate.primary resp]
   | none => []) ++ req.alternatives.map Candidate.alternative

/-- Whether a candidate has a target passing is_sft_example. -/
def candidatePassesSft (lib : JsonLib) (active_schema : Option JsonSchemaDoc)
    (sft_threshold : ℚ) (c : Candidate) : Bool :=
  match candidateTarget c with
  | some target => is_sft_example lib target active_schema sft_threshold
  | none => false

/-- Specification-side full cross product of two lists. -/
def allPairs {α β : Type} (xs : List α) (ys : List β) : List (α × β) :=
  xs.flatMap (fun x => ys.map (fun y => (x, y)))

/-- Specification-side description of the question lookup: content of the most
recent user-role message whose content is truthy. -/
def lastTruthyUserContent (es : List RawEntry) : Option String :=
  (es.reverse.find? (fun m =>
    decide (entryRole m = some "user") && truthyStr (entryContent m))).bind entryContent

/-- Concrete stand-in for the json / jsonschema libraries used by the witness
inputs below: json.loads succeeds on the literal string of the empty JSON
object and raises elsewhere; the validator always accepts. -/
def demoLib : JsonLib :=
  JsonLib.mk (fun s => if s = "{}" then some (JsonVal.obj []) else none)
    (fun _ _ => ValidationOutcome.ok)

/-- A variant library whose validator always reports a
JsonSchemaValidationError. -/
def demoLibReject : JsonLib :=
  JsonLib.mk (fun s => if s = "{}" then some (JsonVal.obj []) else none)
    (fun _ _ => ValidationOutcome.schemaError)

/-- A non-empty schema document. -/
def demoSchema : JsonSchemaDoc := [("type", JsonVal.str "object")]

/-- The target of example scenario 2 of the spec: two annotations with rewards
0.2 and 0.1. -/
def exTargetC2 : AnnotationTarget :=
  ⟨1, [⟨some (2/10)⟩, ⟨some (1/10)⟩], none, none⟩

/-- A target whose primary-response content is the string x (not valid JSON)
and whose single annotation has reward 1. -/
def cexTargetC3 : AnnotationTarget :=
  ⟨2, [⟨some 1⟩], some ⟨21, some "x"⟩, none⟩

/-- A fully-rewarded target owned by a primary response with no content. -/
def noContentTarget : AnnotationTarget :=
  ⟨3, [⟨some 1⟩], some ⟨22, none⟩, none⟩

/-- A target with one annotation of reward 1, owned by a primary response with
content 4. -/
def wTargetHigh : AnnotationTarget :=
  ⟨41, [⟨some 1⟩], some ⟨42, some "4"⟩, none⟩

/-- A target with one annotation of reward 0, owned by an alternative with
content five. -/
def wTargetLow : AnnotationTarget :=
  ⟨43, [⟨some 0⟩], none, some ⟨45, "five"⟩⟩

/-- Example scenario 3 of the spec: one user message, a primary response 4
qualifying for SFT and one alternative five qualifying as DPO negative. -/
def wReq : CompletionsRequest :=
  ⟨"req-w", RawMessages.list [RawEntry.dict (some "user") (some "2+2?")],
   some ⟨42, some "4", some wTargetHigh⟩, [⟨45, "five", some wTargetLow⟩]⟩

/-- A request with no annotations anywhere: one unannotated primary response. -/
def wReqNoAnnotations : CompletionsRequest :=
  ⟨"req-na", RawMessages.list [RawEntry.dict (some "user") (some "hi")],
   some ⟨52, some "4", some ⟨51, [], some ⟨52, some "4"⟩, none⟩⟩, []⟩

/-- A fully-rewarded target owned by a primary response with content 4. -/
def cexTargetC8 : AnnotationTarget :=
  ⟨30, [⟨some 1⟩], some ⟨31, some "4"⟩, none⟩

/-- A request whose single stored message lacks the role key, while its
primary response qualifies for SFT. -/
def cexReqC8 : CompletionsRequest :=
  ⟨"req-0001", RawMessages.list [RawEntry.dict none (some "hi")],
   some ⟨31, some "4", some cexTargetC8⟩, []⟩

/-- A request whose messages field is not a list. -/
def wReqNotList : CompletionsRequest :=
  ⟨"req-nl", RawMessages.notList,
   some ⟨61, some "4", some ⟨60, [⟨some 1⟩], some ⟨61, some "4"⟩, none⟩⟩, []⟩

/-- Messages whose last user-role message has empty content while an earlier
user-role message has content a. -/
def cexMsgsC9 : List RawEntry :=
  [RawEntry.dict (some "user") (some "a"), RawEntry.dict (some "user") (some "")]

/-- The request carrying cexMsgsC9. -/
def cexReqC9 : CompletionsRequest :=
  ⟨"abcdefgh-1234", RawMessages.list cexMsgsC9, none, []⟩

/-- A request with no candidates at all. -/
def wReqEmpty : CompletionsRequest :=
  ⟨"req-e", RawMessages.list [], none, []⟩

theorem num_annotations_with_reward_ne_zero_iff (target : AnnotationTarget) :
    num_annotations_with_reward target ≠ 0 ↔
      ∃ a ∈ target.annotations, a.reward.isSome = true := by
  unfold num_annotations_with_reward
  constructor
  · intro h
    exact List.countP_pos_iff.mp (Nat.pos_of_ne_zero h)
  · intro h
    exact Nat.pos_iff_ne_zero.mp (List.countP_pos_iff.mpr h)

theorem is_sft_example_eq_true_iff (lib : JsonLib) (target : AnnotationTarget)
    (active_schema : Option JsonSchemaDoc) (threshold : ℚ) :
    is_sft_example lib target active_schema threshold = true ↔
      (target.annotations ≠ [] ∧ num_annotations_with_reward target ≠ 0 ∧
       threshold ≤ average_reward target ∧
       schemaGate lib active_schema target = true) := by
  simp only [is_sft_example, schemaGate]
  split_ifs with h1 h2 h3
  · have h1' : target.annotations = [] := List.isEmpty_iff.mp h1
    simp [h1']
  · simp [h2]
  · simp [h3.not_le]
  · have h1' : target.annotations ≠ [] := by
      intro hnil
      exact h1 (by simp [hnil])
    have h3' : threshold ≤ average_reward target := not_lt.mp h3
    simp [h1', h2, h3']

theorem is_dpo_negative_example_eq_true_iff (lib : JsonLib) (target : AnnotationTarget)
    (active_schema : Option JsonSchemaDoc) (threshold : ℚ) :
    is_dpo_negative_example lib target active_schema threshold = true ↔
      (target.annotations ≠ [] ∧ num_annotations_with_reward target ≠ 0 ∧
       average_reward target < threshold ∧
       schemaGate lib active_schema target = true) := by
  simp only [is_dpo_negative_example, schemaGate]
  split_ifs with h1 h2 h3
  · have h1' : target.annotations = [] := List.isEmpty_iff.mp h1
    simp [h1']
  · simp [h2]
  · simp [h3.not_lt]
  · have h1' : target.annotations ≠ [] := by
      intro hnil
      exact h1 (by simp [hnil])
    have h3' : average_reward target < threshold := not_le.mp h3
    simp [h1', h2, h3']

theorem is_sft_example_requires_annotations (lib : JsonLib) (target : AnnotationTarget)
    (active_schema : Option JsonSchemaDoc) (threshold : ℚ)
    (h : is_sft_example lib target active_schema threshold = true) :
    target.annotations ≠ [] :=
  ((is_sft_example_eq_true_iff lib target active_schema threshold).mp h).1

/-- C1: with no active schema, is_sft_example fails on a target with zero
annotations or with no non-null reward, and otherwise succeeds exactly when
the sum of the non-null rewards divided by the total annotation count is at
least the threshold. -/
theorem C1_is_sft_example_no_schema (lib : JsonLib) (target : AnnotationTarget)
    (t : ℚ) :
    is_sft_example lib target none t = true ↔
      (target.annotations ≠ [] ∧
       (∃ a ∈ target.annotations, a.reward.isSome = true) ∧
       t ≤ (target.annotations.filterMap (fun a => a.reward)).sum /
         (target.annotations.length : ℚ)) := by
  rw [is_sft_example_eq_true_iff]
  simp [schemaGate, average_reward, total_reward, num_annotations_with_reward_ne_zero_iff]

/-- C2: is_dpo_negative_example has the structure of is_sft_example with the
reward comparison inverted: it succeeds exactly when the target has
annotations, some reward is non-null, the average reward is strictly below the
threshold, and the shared schema gate passes; in particular the target with
rewards 0.2 and 0.1 qualifies at threshold 0.25 with no schema. -/
theorem C2_is_dpo_negative_example_characterization :
    (∀ (lib : JsonLib) (target : AnnotationTarget)
       (active_schema : Option JsonSchemaDoc) (t : ℚ),
      is_dpo_negative_example lib target active_schema t = true ↔
        (target.annotations ≠ [] ∧
         (∃ a ∈ target.annotations, a.reward.isSome = true) ∧
         (target.annotations.filterMap (fun a => a.reward)).sum /
           (target.annotations.length : ℚ) < t ∧
         schemaGate lib active_schema target = true)) ∧
    is_dpo_negative_example demoLib exTargetC2 none (25/100) = true := by
  constructor
  · intro lib target active_schema t
    rw [is_dpo_negative_example_eq_true_iff]
    simp [average_reward, total_reward, num_annotations_with_reward_ne_zero_iff]
  · rw [is_dpo_negative_example_eq_true_iff]
    refine ⟨by simp [exTargetC2], ?_, ?_, by simp [schemaGate]⟩
    · simp [exTargetC2, num_annotations_with_reward]
    · simp only [exTargetC2, average_reward, total_reward, List.filterMap_cons,
        List.filterMap_nil, List.sum_cons, List.sum_nil, List.length_cons,
        List.length_nil]
      norm_num

/-- C10: when the DPO-negative threshold is at most the SFT threshold, no
target can simultaneously pass is_sft_example and is_dpo_negative_example,
for any schema and any library behaviour. -/
theorem C10_sft_dpo_mutually_exclusive (lib : JsonLib) (target : AnnotationTarget)
    (active_schema : Option JsonSchemaDoc) (sft_threshold dpo_negative_threshold : ℚ)
    (h : dpo_negative_threshold ≤ sft_threshold) :
    ¬ (is_sft_example lib target active_schema sft_threshold = true ∧
       is_dpo_negative_example lib target active_schema dpo_negative_threshold = true) := by
  rintro ⟨hs, hd⟩
  have h1 := (is_sft_example_eq_true_iff lib target active_schema sft_threshold).mp hs
  have h2 := (is_dpo_negative_example_eq_true_iff lib target active_schema
    dpo_negative_threshold).mp hd
  exact absurd (lt_of_le_of_lt h1.2.2.1 (lt_of_lt_of_le h2.2.2.1 h))
    (lt_irrefl sft_threshold)

/-- Witness for C10 at the default thresholds 0.75 and 0.25. -/
theorem C10_sft_dpo_mutually_exclusive_witness :
    ((1:ℚ)/4 ≤ 3/4) ∧
    ¬ (is_sft_example demoLib exTargetC2 none (3/4) = true ∧
       is_dpo_negative_example demoLib exTargetC2 none (1/4) = true) :=
  ⟨by norm_num,
   C10_sft_dpo_mutually_exclusive demoLib exTargetC2 none (3/4) (1/4) (by norm_num)⟩

theorem contentSchemaCheck_false_of_no_content (lib : JsonLib)
    (schema : JsonSchemaDoc) (target : AnnotationTarget)
    (h : resolveContent target = none ∨ resolveContent target = some "") :
    contentSchemaCheck lib schema target = false := by
  unfold contentSchemaCheck
  rcases h with h | h <;> rw [h] <;> simp

theorem contentSchemaCheck_false_of_not_json (lib : JsonLib)
    (schema : JsonSchemaDoc) (target : AnnotationTarget) (content : String)
    (h : resolveContent target = some content) (hl : lib.loads content = none) :
    contentSchemaCheck lib schema target = false := by
  unfold contentSchemaCheck
  rw [h]
  by_cases hc : content = ""
  · simp [hc]
  · simp [hc, hl]

theorem contentSchemaCheck_false_of_invalid (lib : JsonLib)
    (schema : JsonSchemaDoc) (target : AnnotationTarget) (content : String)
    (parsed : JsonVal) (h : resolveContent target = some content)
    (hl : lib.loads content = some parsed)
    (hv : lib.validate schema parsed ≠ ValidationOutcome.ok) :
    contentSchemaCheck lib schema target = false := by
  unfold contentSchemaCheck
  rw [h]
  by_cases hc : content = ""
  · simp [hc]
  · cases hout : lib.validate schema parsed <;> simp_all

theorem classifiers_false_of_check_false (lib : JsonLib) (schema : JsonSchemaDoc)
    (target : AnnotationTarget) (sft_threshold dpo_negative_threshold : ℚ)
    (hne : schema ≠ []) (hg : contentSchemaCheck lib schema target = false) :
    is_sft_example lib target (some schema) sft_threshold = false ∧
    is_dpo_negative_example lib target (some schema) dpo_negative_threshold = false := by
  have hie : schema.isEmpty = false := by
    cases h' : schema.isEmpty
    · rfl
    · exact absurd (List.isEmpty_iff.mp h') hne
  constructor
  · by_contra h
    rw [Bool.not_eq_false] at h
    have hgate := ((is_sft_example_eq_true_iff lib target (some schema)
      sft_threshold).mp h).2.2.2
    simp [schemaGate, hie, hg] at hgate
  · by_contra h
    rw [Bool.not_eq_false] at h
    have hgate := ((is_dpo_negative_example_eq_true_iff lib target (some schema)
      dpo_negative_threshold).mp h).2.2.2
    simp [schemaGate, hie, hg] at hgate

/-- Counterexample to C3 as stated: the empty schema document is a provided
active schema, yet Python treats the empty dict as falsy and skips every
content / JSON / schema check, so a target whose content x is not valid JSON
still classifies as an SFT example when its reward passes. -/
theorem C3_counterexample :
    is_sft_example demoLib cexTargetC3 (some ([] : JsonSchemaDoc)) (3/4) = true ∧
    demoLib.loads "x" = none ∧
    resolveContent cexTargetC3 = some "x" := by
  refine ⟨?_, rfl, rfl⟩
  rw [is_sft_example_eq_true_iff]
  refine ⟨by simp [cexTargetC3], by simp [cexTargetC3, num_annotations_with_reward], ?_,
    by simp [schemaGate]⟩
  simp only [cexTargetC3, average_reward, total_reward, List.filterMap_cons,
    List.filterMap_nil, List.sum_cons, List.sum_nil, List.length_cons,
    List.length_nil]
  norm_num

/-- C3 (amended): whenever a non-empty active schema is provided, both
classifier predicates resolve the candidate content and return False on
missing or empty content, on content that is not valid JSON, and on any
validator outcome other than success (validation errors and unexpected
exceptions alike, which the model folds into the outcome type) — regardless
of the reward average. -/
theorem C3_schema_failures_yield_false (lib : JsonLib) (schema : JsonSchemaDoc)
    (target : AnnotationTarget) (sft_threshold dpo_negative_threshold : ℚ)
    (hne : schema ≠ []) :
    ((resolveContent target = none ∨ resolveContent target = some "") →
      is_sft_example lib target (some schema) sft_threshold = false ∧
      is_dpo_negative_example lib target (some schema) dpo_negative_threshold = false) ∧
    (∀ content, resolveContent target = some content → lib.loads content = none →
      is_sft_example lib target (some schema) sft_threshold = false ∧
      is_dpo_negative_example lib target (some schema) dpo_negative_threshold = false) ∧
    (∀ content parsed, resolveContent target = some content →
      lib.loads content = some parsed →
      lib.validate schema parsed ≠ ValidationOutcome.ok →
      is_sft_example lib target (some schema) sft_threshold = false ∧
      is_dpo_negative_example lib target (some schema) dpo_negative_threshold = false) := by
  refine ⟨?_, ?_, ?_⟩
  · intro h
    exact classifiers_false_of_check_false lib schema target sft_threshold
      dpo_negative_threshold hne
      (contentSchemaCheck_false_of_no_content lib schema target h)
  · intro content h hl
    exact classifiers_false_of_check_false lib schema target sft_threshold
      dpo_negative_threshold hne
      (contentSchemaCheck_false_of_not_json lib schema target content h hl)
  · intro content parsed h hl hv
    exact classifiers_false_of_check_false lib schema target sft_threshold
      dpo_negative_threshold hne
      (contentSchemaCheck_false_of_invalid lib schema target content parsed h hl hv)

/-- Witness for the amended C3: a fully-rewarded target with no content fails
both classifiers under the non-empty demo schema. -/
theorem C3_schema_failures_yield_false_witness :
    demoSchema ≠ ([] : JsonSchemaDoc) ∧
    resolveContent noContentTarget = none ∧
    is_sft_example demoLib noContentTarget (some demoSchema) (3/4) = false ∧
    is_dpo_negative_example demoLib noContentTarget (some demoSchema) (1/4) = false := by
  have h := (C3_schema_failures_yield_false demoLib demoSchema noContentTarget
    (3/4) (1/4) (by simp [demoSchema])).1 (Or.inl rfl)
  exact ⟨by simp [demoSchema], rfl, h.1, h.2⟩

theorem dpoReadyLoop_eq (lib : JsonLib) (active_schema : Option JsonSchemaDoc)
    (sft_threshold dpo_negative_threshold : ℚ) (targets : List AnnotationTarget)
    (fs fn : Bool) (h : (fs && fn) = false) :
    dpoReadyLoop lib active_schema sft_threshold dpo_negative_threshold targets fs fn =
      ((fs || targets.any (fun t => is_sft_example lib t active_schema sft_threshold)) &&
       (fn || targets.any (fun t =>
          is_dpo_negative_example lib t active_schema dpo_negative_threshold))) := by
  induction targets generalizing fs fn with
  | nil => simp [dpoReadyLoop, h]
  | cons hd tl ih =>
    simp only [dpoReadyLoop, List.any_cons]
    split
    next hcond =>
      rw [Bool.and_eq_true] at hcond
      obtain ⟨h1, h2⟩ := hcond
      rw [← Bool.or_assoc, ← Bool.or_assoc, h1, h2]
      rfl
    next hcond =>
      have hc : ((fs || is_sft_example lib hd active_schema sft_threshold) &&
          (fn || is_dpo_negative_example lib hd active_schema
            dpo_negative_threshold)) = false := by
        cases hb : ((fs || is_sft_example lib hd active_schema sft_threshold) &&
            (fn || is_dpo_negative_example lib hd active_schema
              dpo_negative_threshold))
        · rfl
        · exact absurd hb hcond
      rw [ih _ _ hc, ← Bool.or_assoc, ← Bool.or_assoc]

theorem is_dpo_ready_eq_any (lib : JsonLib) (active_schema : Option JsonSchemaDoc)
    (sft_threshold dpo_negative_threshold : ℚ) (req : CompletionsRequest) :
    is_dpo_ready lib active_schema sft_threshold dpo_negative_threshold req =
      ((targetsOfRequest req).any
        (fun t => is_sft_example lib t active_schema sft_threshold) &&
       (targetsOfRequest req).any
        (fun t => is_dpo_negative_example lib t active_schema dpo_negative_threshold)) := by
  unfold is_dpo_ready
  by_cases h : (targetsOfRequest req).isEmpty = true
  · have h' : targetsOfRequest req = [] := List.isEmpty_iff.mp h
    simp [h']
  · rw [if_neg h, dpoReadyLoop_eq lib active_schema sft_threshold
      dpo_negative_threshold (targetsOfRequest req) false false rfl]
    simp

/-- C4: is_dpo_ready holds exactly when some target of the request passes
is_sft_example and some (not necessarily different) target passes
is_dpo_negative_example, and a request with no candidates is never ready. -/
theorem C4_is_dpo_ready_iff (lib : JsonLib) (active_schema : Option JsonSchemaDoc)
    (sft_threshold dpo_negative_threshold : ℚ) (req : CompletionsRequest) :
    (is_dpo_ready lib active_schema sft_threshold dpo_negative_threshold req = true ↔
      ((∃ t ∈ targetsOfRequest req,
          is_sft_example lib t active_schema sft_threshold = true) ∧
       (∃ t ∈ targetsOfRequest req,
          is_dpo_negative_example lib t active_schema dpo_negative_threshold = true))) ∧
    (candidatesOf req = [] →
      is_dpo_ready lib active_schema sft_threshold dpo_negative_threshold req = false) := by
  constructor
  · rw [is_dpo_ready_eq_any]
    simp [List.any_eq_true]
  · intro hc
    have h1 : req.completion_response = none := by
      rcases hr : req.completion_response with _ | resp
      · rfl
      · simp [candidatesOf, hr] at hc
    have h2 : req.alternatives = [] := by
      rcases ha : req.alternatives with _ | ⟨alt, rest⟩
      · rfl
      · simp [candidatesOf, ha] at hc
    rw [is_dpo_ready_eq_any]
    simp [targetsOfRequest, h1, h2]

/-- Witness for C4: the no-candidate request is not DPO ready. -/
theorem C4_is_dpo_ready_iff_witness :
    candidatesOf wReqEmpty = [] ∧
    is_dpo_ready demoLib none (3/4) (1/4) wReqEmpty = false :=
  ⟨rfl, (C4_is_dpo_ready_iff demoLib none (3/4) (1/4) wReqEmpty).2 rfl⟩

theorem allPairs_nil_right {α β : Type} (xs : List α) :
    allPairs xs ([] : List β) = [] := by
  induction xs with
  | nil => rfl
  | cons x xs ih =>
    simp only [allPairs, List.flatMap_cons, List.map_nil, List.nil_append]
    simpa [allPairs] using ih

theorem pair_inner {α β γ : Type} (x : α) (ys : List β) (key : α → Nat)
    (key2 : β → Nat) (g : α → β → γ) :
    ys.filterMap (fun y => if key x = key2 y then none else some (g x y)) =
      ((ys.map (fun y => (x, y))).filter
        (fun q => decide (key q.1 ≠ key2 q.2))).map (fun q => g q.1 q.2) := by
  induction ys with
  | nil => rfl
  | cons y ys ih =>
    simp only [List.filterMap_cons, List.map_cons, List.filter_cons]
    by_cases h : key x = key2 y
    · rw [if_pos h]
      have hc : (decide (key (x, y).1 ≠ key2 (x, y).2)) = false := by simp [h]
      rw [hc]
      simpa using ih
    · rw [if_neg h]
      have hc : (decide (key (x, y).1 ≠ key2 (x, y).2)) = true := by simp [h]
      rw [hc]
      simpa using ih

theorem flatMap_filterMap_pairs {α β γ : Type} (xs : List α) (ys : List β)
    (key : α → Nat) (key2 : β → Nat) (g : α → β → γ) :
    xs.flatMap (fun x => ys.filterMap
      (fun y => if key x = key2 y then none else some (g x y))) =
      ((allPairs xs ys).filter
        (fun q => decide (key q.1 ≠ key2 q.2))).map (fun q => g q.1 q.2) := by
  induction xs with
  | nil => rfl
  | cons x xs ih =>
    rw [List.flatMap_cons,
      show allPairs (x :: xs) ys = ys.map (fun y => (x, y)) ++ allPairs xs ys from by
        simp [allPairs],
      List.filter_append, List.map_append, ih, pair_inner]

/-- C5: both DPO generators emit, per request, exactly the full cross product
of the SFT-qualifying and DPO-negative-qualifying candidate lists minus the
same-target pairs, and emit nothing unless both lists are non-empty (the
cross product with an empty side is empty); requests with malformed messages
contribute nothing. -/
theorem C5_dpo_cross_product :
    (∀ (lib : JsonLib) (active_schema : Option JsonSchemaDoc)
       (sft_threshold dpo_negative_threshold : ℚ) (req : CompletionsRequest),
      dpoEntriesForRequest lib active_schema sft_threshold dpo_negative_threshold req =
        match parseBaseMessages req.messages with
        | none => []
        | some base =>
          ((allPairs (dpoSftList lib active_schema sft_threshold (targetsOfRequest req))
              (dpoNegList lib active_schema dpo_negative_threshold
                (targetsOfRequest req))).filter
            (fun q => decide (q.1.1.id ≠ q.2.1.id))).map
            (fun q => DpoExample.mk (DpoInput.mk base [] true) [q.1.2] [q.2.2])) ∧
    (∀ (lib : JsonLib) (active_schema : Option JsonSchemaDoc)
       (sft_threshold dpo_negative_threshold : ℚ) (req : CompletionsRequest),
      hubEntriesForRequest lib active_schema sft_threshold dpo_negative_threshold req =
        match parseBaseMessages req.messages with
        | none => []
        | some base =>
          ((allPairs
              (hubSftList lib active_schema sft_threshold (targetsOfRequest req))
              (hubNegList lib active_schema dpo_negative_threshold
                (targetsOfRequest req))).filter
            (fun q => decide (q.1.1.id ≠ q.2.1.id))).map
            (fun q => HubDpoItem.mk
              (base ++ [SftMessage.mk "assistant" q.1.2.1])
              (base ++ [SftMessage.mk "assistant" q.2.2.1])
              q.1.2.2 q.2.2.2)) := by
  constructor
  · intro lib active_schema sft_threshold dpo_negative_threshold req
    simp only [dpoEntriesForRequest]
    by_cases he : ((dpoSftList lib active_schema sft_threshold
        (targetsOfRequest req)).isEmpty ||
        (dpoNegList lib active_schema dpo_negative_threshold
          (targetsOfRequest req)).isEmpty) = true
    · rw [if_pos he]
      cases hp : parseBaseMessages req.messages with
      | none => rfl
      | some base =>
        rw [Bool.or_eq_true] at he
        rcases he with h | h
        · simp [List.isEmpty_iff.mp h, allPairs]
        · simp [List.isEmpty_iff.mp h, allPairs_nil_right]
    · rw [if_neg he]
      cases hp : parseBaseMessages req.messages with
      | none => rfl
      | some base =>
        exact flatMap_filterMap_pairs _ _ (fun x => x.1.id) (fun y => y.1.id)
          (fun (x y : AnnotationTarget × String) =>
            DpoExample.mk (DpoInput.mk base [] true) [x.2] [y.2])
  · intro lib active_schema sft_threshold dpo_negative_threshold req
    simp only [hubEntriesForRequest]
    cases hp : parseBaseMessages req.messages with
    | none => rfl
    | some base =>
      dsimp only
      by_cases he : ((hubSftList lib active_schema sft_threshold
          (targetsOfRequest req)).isEmpty ||
          (hubNegList lib active_schema dpo_negative_threshold
            (targetsOfRequest req)).isEmpty) = true
      · rw [if_pos he]
        rw [Bool.or_eq_true] at he
        rcases he with h | h
        · simp [List.isEmpty_iff.mp h, allPairs]
        · simp [List.isEmpty_iff.mp h, allPairs_nil_right]
      · rw [if_neg he]
        exact flatMap_filterMap_pairs _ _ (fun x => x.1.id) (fun y => y.1.id)
          (fun (x y : AnnotationTarget × String × ℚ) => HubDpoItem.mk
            (base ++ [SftMessage.mk "assistant" x.2.1])
            (base ++ [SftMessage.mk "assistant" y.2.1]) x.2.2 y.2.2)

theorem alt_filterMap_eq (lib : JsonLib) (active_schema : Option JsonSchemaDoc)
    (sft_threshold : ℚ) (base : List SftMessage) (l : List AlternativeWithTarget) :
    (l.filterMap (fun alt =>
      match alt.annotation_target with
      | some target =>
        if is_sft_example lib target active_schema sft_threshold then
          some (SftConversation.mk (base ++
            [SftMessage.mk "assistant" alt.alternative_content]))
        else none
      | none => none)) =
      ((l.map Candidate.alternative).filter
        (candidatePassesSft lib active_schema sft_threshold)).map
        (fun c => SftConversation.mk (base ++
          [SftMessage.mk "assistant" (candidateText c)])) := by
  induction l with
  | nil => rfl
  | cons alt l ih =>
    rcases ht : alt.annotation_target with _ | target
    · simp [ht, candidatePassesSft, candidateTarget, ih]
    · by_cases hs : is_sft_example lib target active_schema sft_threshold = true
      · simp [ht, hs, candidatePassesSft, candidateTarget, candidateText, ih]
      · have hs' : is_sft_example lib target active_schema sft_threshold = false := by
          cases hb : is_sft_example lib target active_schema sft_threshold
          · rfl
          · exact absurd hb hs
        simp [ht, hs', candidatePassesSft, candidateTarget, candidateText, ih]

/-- C6: per request, SFT generation emits exactly one conversation for each
candidate (primary or alternative) whose target passes is_sft_example: the
parsed base messages plus one appended assistant message carrying that
candidate text; requests with malformed messages contribute nothing. -/
theorem C6_sft_one_conversation_per_qualifying_candidate
    (lib : JsonLib) (active_schema : Option JsonSchemaDoc) (sft_threshold : ℚ)
    (req : CompletionsRequest) :
    sftEntriesForRequest lib active_schema sft_threshold req =
      match parseBaseMessages req.messages with
      | none => []
      | some base =>
        ((candidatesOf req).filter
          (candidatePassesSft lib active_schema sft_threshold)).map
          (fun c => SftConversation.mk (base ++
            [SftMessage.mk "assistant" (candidateText c)])) := by
  simp only [sftEntriesForRequest]
  cases hp : parseBaseMessages req.messages with
  | none => rfl
  | some base =>
    simp only [candidatesOf, List.filter_append, List.map_append]
    congr 1
    · rcases hr : req.completion_response with _ | resp
      · rfl
      · rcases ht : resp.annotation_target with _ | target
        · simp [ht, candidatePassesSft, candidateTarget]
        · by_cases hs : is_sft_example lib target active_schema sft_threshold = true
          · simp [ht, hs, candidatePassesSft, candidateTarget, candidateText]
          · have hs' : is_sft_example lib target active_schema sft_threshold = false := by
              cases hb : is_sft_example lib target active_schema sft_threshold
              · rfl
              · exact absurd hb hs
            simp [ht, hs', candidatePassesSft, candidateTarget, candidateText]
    · exact alt_filterMap_eq lib active_schema sft_threshold base req.alternatives

theorem bool_eq_false_of_ne_true {b : Bool} (h : ¬ b = true) : b = false := by
  cases b
  · rfl
  · exact absurd rfl h

theorem found_sft_eq_any (lib : JsonLib) (active_schema : Option JsonSchemaDoc)
    (sft_threshold : ℚ) (targets : List AnnotationTarget) :
    (targets.any (fun t => !t.annotations.isEmpty &&
      is_sft_example lib t active_schema sft_threshold)) =
      targets.any (fun t => is_sft_example lib t active_schema sft_threshold) := by
  induction targets with
  | nil => rfl
  | cons hd tl ih =>
    simp only [List.any_cons, ih]
    cases hs : is_sft_example lib hd active_schema sft_threshold
    · simp
    · have hne : hd.annotations ≠ [] :=
        is_sft_example_requires_annotations lib hd active_schema sft_threshold hs
      have hie : hd.annotations.isEmpty = false := by
        cases h' : hd.annotations.isEmpty
        · rfl
        · exact absurd (List.isEmpty_iff.mp h') hne
      simp [hie]

/-- C7: the summary SFT status is complete exactly when some target of the
request passes is_sft_example, partial exactly when some target is annotated
but none passes, and none exactly when no target has an annotation; a request
with no annotations anywhere gets both statuses none, and every request of
the fetched list appears in the summary. -/
theorem C7_summary_statuses (lib : JsonLib) (active_schema : Option JsonSchemaDoc)
    (sft_threshold dpo_negative_threshold : ℚ) (req : CompletionsRequest)
    (requests : List CompletionsRequest) :
    ((requestSummary lib active_schema sft_threshold dpo_negative_threshold
        req).sftStatus = "complete" ↔
      ∃ t ∈ targetsOfRequest req,
        is_sft_example lib t active_schema sft_threshold = true) ∧
    ((requestSummary lib active_schema sft_threshold dpo_negative_threshold
        req).sftStatus = "partial" ↔
      ((∃ t ∈ targetsOfRequest req, t.annotations ≠ []) ∧
       ¬ ∃ t ∈ targetsOfRequest req,
          is_sft_example lib t active_schema sft_threshold = true)) ∧
    ((requestSummary lib active_schema sft_threshold dpo_negative_threshold
        req).sftStatus = "none" ↔
      ∀ t ∈ targetsOfRequest req, t.annotations = []) ∧
    ((∀ t ∈ targetsOfRequest req, t.annotations = []) →
      (requestSummary lib active_schema sft_threshold dpo_negative_threshold
        req).sftStatus = "none" ∧
      (requestSummary lib active_schema sft_threshold dpo_negative_threshold
        req).dpoStatus = "none") ∧
    (req ∈ requests →
      requestSummary lib active_schema sft_threshold dpo_negative_threshold req ∈
        get_requests_summary lib active_schema sft_threshold dpo_negative_threshold
          requests) := by
  have hmem : req ∈ requests →
      requestSummary lib active_schema sft_threshold dpo_negative_threshold req ∈
        get_requests_summary lib active_schema sft_threshold dpo_negative_threshold
          requests :=
    fun hm => List.mem_map_of_mem _ hm
  have hany := found_sft_eq_any lib active_schema sft_threshold (targetsOfRequest req)
  by_cases hF : (targetsOfRequest req).any
      (fun t => !t.annotations.isEmpty &&
        is_sft_example lib t active_schema sft_threshold) = true
  · have hex : ∃ t ∈ targetsOfRequest req,
        is_sft_example lib t active_schema sft_threshold = true := by
      rw [hany] at hF
      simpa [List.any_eq_true] using hF
    obtain ⟨t0, ht0, hs0⟩ := hex
    have hstat : (requestSummary lib active_schema sft_threshold
        dpo_negative_threshold req).sftStatus = "complete" := by
      simp [requestSummary, hF]
    refine ⟨?_, ?_, ?_, ?_, hmem⟩
    · rw [hstat]
      exact iff_of_true rfl ⟨t0, ht0, hs0⟩
    · rw [hstat]
      refine iff_of_false (by decide) ?_
      rintro ⟨-, hno⟩
      exact hno ⟨t0, ht0, hs0⟩
    · rw [hstat]
      refine iff_of_false (by decide) ?_
      intro hall
      exact (is_sft_example_requires_annotations lib t0 active_schema
        sft_threshold hs0) (hall t0 ht0)
    · intro hall
      exact absurd (hall t0 ht0)
        (is_sft_example_requires_annotations lib t0 active_schema sft_threshold hs0)
  · have hF' := bool_eq_false_of_ne_true hF
    have hnosft : ¬ ∃ t ∈ targetsOfRequest req,
        is_sft_example lib t active_schema sft_threshold = true := by
      intro hex
      apply hF
      rw [hany]
      simpa [List.any_eq_true] using hex
    by_cases hC : 0 < (targetsOfRequest req).countP (fun t => !t.annotations.isEmpty)
    · have hannot : ∃ t ∈ targetsOfRequest req, t.annotations ≠ [] := by
        obtain ⟨t0, ht0, hb⟩ := List.countP_pos_iff.mp hC
        refine ⟨t0, ht0, ?_⟩
        intro hnil
        simp [hnil] at hb
      have hstat : (requestSummary lib active_schema sft_threshold
          dpo_negative_threshold req).sftStatus = "partial" := by
        simp [requestSummary, hF', hC]
      refine ⟨?_, ?_, ?_, ?_, hmem⟩
      · rw [hstat]
        exact iff_of_false (by decide) hnosft
      · rw [hstat]
        exact iff_of_true rfl ⟨hannot, hnosft⟩
      · rw [hstat]
        refine iff_of_false (by decide) ?_
        intro hall
        obtain ⟨t0, ht0, hne⟩ := hannot
        exact hne (hall t0 ht0)
      · intro hall
        obtain ⟨t0, ht0, hne⟩ := hannot
        exact absurd (hall t0 ht0) hne
    · have hCz : (targetsOfRequest req).countP
          (fun t => !t.annotations.isEmpty) = 0 := Nat.eq_zero_of_not_pos hC
      have hall : ∀ t ∈ targetsOfRequest req, t.annotations = [] := by
        intro t ht
        have hnp := List.countP_eq_zero.mp hCz t ht
        simpa [List.isEmpty_iff] using hnp
      have hstat : (requestSummary lib active_schema sft_threshold
          dpo_negative_threshold req).sftStatus = "none" := by
        simp [requestSummary, hF', hCz]
      have hdpo : (requestSummary lib active_schema sft_threshold
          dpo_negative_threshold req).dpoStatus = "none" := by
        have hanyf : (targetsOfRequest req).any
            (fun t => is_sft_example lib t active_schema sft_threshold) = false := by
          rw [List.any_eq_false]
          intro t ht hs
          exact (is_sft_example_requires_annotations lib t active_schema
            sft_threshold hs) (hall t ht)
        simp [requestSummary, is_dpo_ready_eq_any, hanyf]
      refine ⟨?_, ?_, ?_, fun _ => ⟨hstat, hdpo⟩, hmem⟩
      · rw [hstat]
        exact iff_of_false (by decide) hnosft
      · rw [hstat]
        refine iff_of_false (by decide) ?_
        rintro ⟨⟨t0, ht0, hne⟩, -⟩
        exact hne (hall t0 ht0)
      · rw [hstat]
        exact iff_of_true rfl hall

/-- Witness for C7: the request with no annotations anywhere is summarised
with both statuses none. -/
theorem C7_summary_statuses_witness :
    (requestSummary demoLib none (3/4) (1/4) wReqNoAnnotations).sftStatus = "none" ∧
    (requestSummary demoLib none (3/4) (1/4) wReqNoAnnotations).dpoStatus = "none" := by
  have hall : ∀ t ∈ targetsOfRequest wReqNoAnnotations, t.annotations = [] := by
    intro t ht
    simp only [wReqNoAnnotations, targetsOfRequest, List.filterMap_nil,
      List.append_nil, List.mem_singleton] at ht
    rw [ht]
  exact (C7_summary_statuses demoLib none (3/4) (1/4) wReqNoAnnotations
    [wReqNoAnnotations]).2.2.2.1 hall

/-- Counterexample to C8 as stated: a stored message missing the role key
does not make the generator skip the request — the entry is silently dropped
by the parsing comprehension and the request still contributes an SFT
conversation (with an empty base-message list). -/
theorem C8_counterexample :
    cexReqC8.messages = RawMessages.list [RawEntry.dict none (some "hi")] ∧
    parseBaseMessages cexReqC8.messages = some [] ∧
    generate_project_sft_data demoLib none (3/4) [cexReqC8] =
      [SftConversation.mk [SftMessage.mk "assistant" "4"]] := by
  refine ⟨rfl, rfl, ?_⟩
  have hsft : is_sft_example demoLib cexTargetC8 none (3/4) = true := by
    rw [is_sft_example_eq_true_iff]
    refine ⟨by simp [cexTargetC8], by simp [cexTargetC8, num_annotations_with_reward],
      ?_, by simp [schemaGate]⟩
    simp only [cexTargetC8, average_reward, total_reward, List.filterMap_cons,
      List.filterMap_nil, List.sum_cons, List.sum_nil, List.length_cons,
      List.length_nil]
    norm_num
  simp [generate_project_sft_data, sftEntriesForRequest, cexReqC8,
    parseBaseMessages, parseEntry, hsft]

/-- C8 (amended): a messages field that is not a list makes every generator
skip that single request while the remaining requests are processed
unchanged; a message entry missing the role or content keys (or that is not
a dict) is silently dropped from the parsed base-message list and the request
itself keeps being processed. -/
theorem C8_malformed_messages (lib : JsonLib) (active_schema : Option JsonSchemaDoc)
    (sft_threshold dpo_negative_threshold : ℚ) (req : CompletionsRequest)
    (pre post : List CompletionsRequest) (es : List RawEntry) :
    (req.messages = RawMessages.notList →
      sftEntriesForRequest lib active_schema sft_threshold req = [] ∧
      dpoEntriesForRequest lib active_schema sft_threshold dpo_negative_threshold
        req = [] ∧
      hubEntriesForRequest lib active_schema sft_threshold dpo_negative_threshold
        req = [] ∧
      generate_project_sft_data lib active_schema sft_threshold
        (pre ++ req :: post) =
        generate_project_sft_data lib active_schema sft_threshold (pre ++ post) ∧
      generate_project_dpo_data lib active_schema sft_threshold
        dpo_negative_threshold (pre ++ req :: post) =
        generate_project_dpo_data lib active_schema sft_threshold
          dpo_negative_threshold (pre ++ post)) ∧
    (req.messages = RawMessages.list es →
      parseBaseMessages req.messages = some (es.filterMap parseEntry)) ∧
    (∀ r c, parseEntry (RawEntry.dict none c) = none ∧
      parseEntry (RawEntry.dict r none) = none ∧
      parseEntry RawEntry.nondict = none) := by
  refine ⟨?_, ?_, ?_⟩
  · intro hmsg
    have h1 : sftEntriesForRequest lib active_schema sft_threshold req = [] := by
      simp [sftEntriesForRequest, hmsg, parseBaseMessages]
    have h2 : dpoEntriesForRequest lib active_schema sft_threshold
        dpo_negative_threshold req = [] := by
      simp [dpoEntriesForRequest, hmsg, parseBaseMessages]
    have h3 : hubEntriesForRequest lib active_schema sft_threshold
        dpo_negative_threshold req = [] := by
      simp [hubEntriesForRequest, hmsg, parseBaseMessages]
    refine ⟨h1, h2, h3, ?_, ?_⟩
    · simp [generate_project_sft_data, List.flatMap_append, List.flatMap_cons, h1]
    · simp [generate_project_dpo_data, List.flatMap_append, List.flatMap_cons, h2]
  · intro hmsg
    rw [hmsg]
    rfl
  · intro r c
    refine ⟨rfl, ?_, rfl⟩
    cases r
    · rfl
    · rfl

/-- Witness for the amended C8: a not-a-list request contributes nothing and
drops out of the generated dataset. -/
theorem C8_malformed_messages_witness :
    wReqNotList.messages = RawMessages.notList ∧
    sftEntriesForRequest demoLib none (3/4) wReqNotList = [] ∧
    generate_project_sft_data demoLib none (3/4) ([] ++ wReqNotList :: []) =
      generate_project_sft_data demoLib none (3/4) ([] ++ []) := by
  have h := (C8_malformed_messages demoLib none (3/4) (1/4) wReqNotList [] [] []).1 rfl
  exact ⟨rfl, h.1, h.2.2.2.1⟩

theorem head?_filterMap {α β : Type} (l : List α) (f : α → Option β) :
    (l.filterMap f).head? = (l.find? (fun a => (f a).isSome)).bind f := by
  induction l with
  | nil => rfl
  | cons a l ih =>
    cases h : f a
    · simp [List.filterMap_cons, h, List.find?_cons, ih]
    · simp [List.filterMap_cons, h, List.find?_cons]

theorem filterMap_user_head (es : List RawEntry) :
    (es.reverse.filterMap (fun m =>
      if entryRole m = some "user" ∧ truthyStr (entryContent m) = true then
        entryContent m
      else none)).head? = lastTruthyUserContent es := by
  rw [head?_filterMap]
  unfold lastTruthyUserContent
  have hp : (fun m => (if entryRole m = some "user" ∧
        truthyStr (entryContent m) = true then entryContent m else none).isSome) =
      (fun m => decide (entryRole m = some "user") && truthyStr (entryContent m)) := by
    funext m
    by_cases h1 : entryRole m = some "user"
    · by_cases h2 : truthyStr (entryContent m) = true
      · have hsome : (entryContent m).isSome = true := by
          cases hc : entryContent m
          · simp [truthyStr, hc] at h2
          · rfl
        simp [h1, h2, hsome]
      · have h2' : truthyStr (entryContent m) = false := bool_eq_false_of_ne_true h2
        simp [h1, h2']
    · simp [h1]
  rw [hp]
  cases hf : es.reverse.find? (fun m =>
      decide (entryRole m = some "user") && truthyStr (entryContent m)) with
  | none => rfl
  | some m =>
    have hm := List.find?_some hf
    rw [Bool.and_eq_true] at hm
    obtain ⟨hr, ht⟩ := hm
    have hr' : entryRole m = some "user" := of_decide_eq_true hr
    simp [hr', ht]

/-- Counterexample to C9 as stated: here the last user-role message has empty
content, the claim therefore demands the (truncated) empty name, but the code
skips user messages with falsy content and derives the name a from the
earlier user message. -/
theorem C9_counterexample :
    (deriveNameQuestion cexReqC9).1 = "a" ∧
    cexMsgsC9.getLast? = some (RawEntry.dict (some "user") (some "")) ∧
    truncName "" = "" ∧
    ("a" : String) ≠ "" := by
  refine ⟨?_, rfl, rfl, by decide⟩
  rfl

/-- C9 (amended): the summary display name is the truncation (50 characters
plus ellipsis) of the content of the most recent user-role message whose
content is non-empty; when no such user message exists it falls back to the
last message content if that is non-empty, and otherwise keeps the default
name built from the first 8 characters of the request id. -/
theorem C9_name_derivation (req : CompletionsRequest) (es : List RawEntry)
    (hmsg : req.messages = RawMessages.list es) (hne : es ≠ []) :
    (deriveNameQuestion req).1 =
      (match lastTruthyUserContent es with
       | some q => truncName q
       | none =>
         match es.getLast? with
         | some last =>
           (match entryContent last with
            | some q =>
              if q = "" then "Request " ++ req.id.take 8 ++ "..." else truncName q
            | none => "Request " ++ req.id.take 8 ++ "...")
         | none => "Request " ++ req.id.take 8 ++ "...") := by
  have hie : ¬ (es.isEmpty = true) := by
    simp [List.isEmpty_iff, hne]
  unfold deriveNameQuestion
  rw [hmsg]
  dsimp only
  rw [if_neg hie]
  have hhead := filterMap_user_head es
  cases hh : es.reverse.filterMap (fun m =>
      if entryRole m = some "user" ∧ truthyStr (entryContent m) = true then
        entryContent m
      else none) with
  | nil =>
    rw [hh] at hhead
    rw [← hhead]
    cases hlast : es.getLast? with
    | none => rfl
    | some last =>
      cases hc : entryContent last with
      | none => simp [hc]
      | some q =>
        by_cases hq : q = ""
        · simp [hc, hq]
        · simp [hc, hq]
  | cons q rest =>
    rw [hh] at hhead
    rw [← hhead]
    rfl

/-- Witness for the amended C9: the single user message of the example
request yields its own short content as the display name. -/
theorem C9_name_derivation_witness :
    wReq.messages = RawMessages.list [RawEntry.dict (some "user") (some "2+2?")] ∧
    ([RawEntry.dict (some "user") (some "2+2?")] : List RawEntry) ≠ [] ∧
    (deriveNameQuestion wReq).1 = "2+2?" := by
  refine ⟨rfl, by simp, ?_⟩
  have h := C9_name_derivation wReq [RawEntry.dict (some "user") (some "2+2?")]
    rfl (by simp)
  rw [h]
  rfl

end Intersebd
